import Mathlib

/-!
Verification of the biopharmacy_platform pages.

The repository is a collection of independent pages, each computing
closed-form pharmacokinetic / physical-pharmacy formulas, plus a Lipinski
"drug designer" game that edits a molecular graph. This file shallowly
embeds the functions the claims talk about:

* `src/pages/10_Lipinski_game.py` — the molecular-graph model, the
  `attach_functional_group` routine, the Lipinski compliance check, and the
  session-state molecule editor;
* `src/pages/4_Pharmacokinetic_Modeling.py` — the compartment-model
  evaluators;
* `src/pages/7_Physical_Pharmacy.py` — buffer capacity;
* `src/pages/2_ PH_Effects_on_Drug_Ionization.py` — Henderson–Hasselbalch
  ionization;
* `src/pages/6_Drug_Diffusion_and_Release_Mechanisms.py` — zero-order
  release.

Machine floats are modelled as exact numbers: `ℚ` where the code only
compares and takes minima, `ℝ` where it evaluates `exp` and powers.
-/

/- ------------------------------------------------------------------ -/
/- Molecular graph model (RDKit `Mol` as used by `10_Lipinski_game.py`) -/
/- ------------------------------------------------------------------ -/

/-- A molecular graph in the style of the RDKit `Mol` objects the game
manipulates.  `atoms.get i` is the atomic number of atom `i` (`0` encodes a
dummy/attachment-placeholder atom `[*]`, `1` a hydrogen, `6` a carbon, …);
`implicitHs.get i` is the number of implicit hydrogens carried by atom `i`
(made explicit by `addHs`); `bonds` lists the (single) bonds as unordered
pairs of atom indices, in insertion order. -/
structure Mol where
  atoms : List Nat
  implicitHs : List Nat
  bonds : List (Nat × Nat)
deriving DecidableEq, Repr

/-- The neighbours of atom `i`, in bond-insertion order — the order RDKit's
`GetNeighbors` reports them for the molecules the game builds. -/
def Mol.neighborsOf (m : Mol) (i : Nat) : List Nat :=
  m.bonds.filterMap (fun b =>
    if b.1 = i then some b.2 else if b.2 = i then some b.1 else none)

/-- Bonds added by `Chem.AddHs`: for the atom at original index `i` carrying
`h` implicit hydrogens, bond it to the `h` fresh hydrogen atoms that are
appended next, numbering the fresh atoms consecutively from `next`. -/
def addHsBonds : List Nat → Nat → Nat → List (Nat × Nat)
  | [], _, _ => []
  | h :: rest, i, next =>
      (List.range h).map (fun j => (i, next + j)) ++ addHsBonds rest (i + 1) (next + h)

/-- `Chem.AddHs`: convert every implicit hydrogen into an explicit hydrogen
atom appended after the existing atoms, bonded to its heavy atom; the
original atoms are left with no implicit hydrogens. -/
def addHs (m : Mol) : Mol :=
  let total := m.implicitHs.sum
  { atoms := m.atoms ++ List.replicate total 1
    implicitHs := m.implicitHs.map (fun _ => 0) ++ List.replicate total 0
    bonds := m.bonds ++ addHsBonds m.implicitHs 0 m.atoms.length }

/-- The hydrogen-location loop of `attach_functional_group` (lines 48–55):
scan the atoms in index order; at the first hydrogen that has at least one
neighbour, return `(hydrogen_idx, heavy_idx)` where the heavy atom is the
hydrogen's first-listed neighbour. -/
def findHydrogen (m : Mol) : Option (Nat × Nat) :=
  (List.range m.atoms.length).findSome? (fun i =>
    if m.atoms.getD i 0 = 1 then
      match m.neighborsOf i with
      | [] => none
      | nb :: _ => some (i, nb)
    else none)

/-- `EditableMol.RemoveAtom` / `RWMol.RemoveAtom`: delete the atom at
`idx`, delete every bond incident to it, and renumber the atoms above `idx`
down by one. -/
def removeAtom (m : Mol) (idx : Nat) : Mol :=
  { atoms := m.atoms.eraseIdx idx
    implicitHs := m.implicitHs.eraseIdx idx
    bonds := m.bonds.filterMap (fun b =>
      if b.1 = idx ∨ b.2 = idx then none
      else some ((if idx < b.1 then b.1 - 1 else b.1),
                 (if idx < b.2 then b.2 - 1 else b.2))) }

/-- `Chem.CombineMols`: disjoint union of the two graphs, the second
molecule's atom indices offset by the first molecule's atom count. -/
def combineMols (a b : Mol) : Mol :=
  let n := a.atoms.length
  { atoms := a.atoms ++ b.atoms
    implicitHs := a.implicitHs ++ b.implicitHs
    bonds := a.bonds ++ b.bonds.map (fun p => (p.1 + n, p.2 + n)) }

/-- `EditableMol.AddBond(i, j, order=SINGLE)`: append a single bond. -/
def addBond (m : Mol) (i j : Nat) : Mol :=
  { m with bonds := m.bonds ++ [(i, j)] }

/-- The dummy-location loop of `attach_functional_group` (lines 75–78):
the index of the first atom of atomic number `0` in the fragment. -/
def findDummy (m : Mol) : Option Nat :=
  m.atoms.findIdx? (fun a => a = 0)

/-- `Chem.SanitizeMol`: the library validity re-check at the end of
`attach_functional_group`.  It validates valences and recomputes implicit
hydrogen counts but does not change the atoms/bonds connectivity, which is
all the claims below depend on; it is modelled as the identity on the
graph. -/
def sanitizeMol (m : Mol) : Mol := m

/-- `attach_functional_group(mol, fg_smiles)` from
`src/pages/10_Lipinski_game.py` lines 32–97.  `fgParse` is the result of
`Chem.MolFromSmiles(fg_smiles)` (`none` when the SMILES does not parse).
Steps, exactly as the source orders them: parse the fragment; add explicit
hydrogens to the base molecule; find the first hydrogen and its heavy
neighbour (fail with `none` if there is none); remove the hydrogen and
adjust the heavy index; combine the two graphs; find the fragment's dummy
atom, falling back to index `0` if there is none; add a single bond from
the heavy atom to the (offset) dummy index; remove the atom at that index;
sanitize and return. -/
def attach_functional_group (mol : Mol) (fgParse : Option Mol) : Option Mol :=
  match fgParse with
  | none => none
  | some fg =>
    let mol_h := addHs mol
    match findHydrogen mol_h with
    | none => none
    | some (hydrogen_idx, heavy_idx0) =>
      let mol_no_H := removeAtom mol_h hydrogen_idx
      let heavy_idx := if hydrogen_idx < heavy_idx0 then heavy_idx0 - 1 else heavy_idx0
      let combo := combineMols mol_no_H fg
      let n_atoms_main := mol_no_H.atoms.length
      let dummy_idx := (findDummy fg).getD 0
      let new_dummy_idx := n_atoms_main + dummy_idx
      let new_mol := addBond combo heavy_idx new_dummy_idx
      let final_mol := removeAtom new_mol new_dummy_idx
      some (sanitizeMol final_mol)

/-- `Chem.MolFromSmiles("CC")`: ethane — two carbons, three implicit
hydrogens each, one C–C bond. -/
def ethane : Mol := { atoms := [6, 6], implicitHs := [3, 3], bonds := [(0, 1)] }

/-- `Chem.MolFromSmiles("[*:1]C")`: the methyl fragment — a dummy
attachment atom bonded to a carbon carrying three implicit hydrogens. -/
def methylFragment : Mol :=
  { atoms := [0, 6], implicitHs := [0, 3], bonds := [(0, 1)] }

/-- `Chem.MolFromSmiles("C")`: methane — a single carbon, no dummy atom. -/
def methane : Mol := { atoms := [6], implicitHs := [4], bonds := [] }

/-- The graph `attach_functional_group` actually returns for
ethane + methyl: ethane with one hydrogen removed, plus the fragment's
carbon left with no bonds at all (index 7). -/
def ethaneMethylResult : Mol :=
  { atoms := [6, 6, 1, 1, 1, 1, 1, 6]
    implicitHs := [0, 0, 0, 0, 0, 0, 0, 3]
    bonds := [(0, 1), (0, 2), (0, 3), (1, 4), (1, 5), (1, 6)] }


/- ------------------------------------------------------------------ -/
/- Session state and the molecule editor (`10_Lipinski_game.py`)       -/
/- ------------------------------------------------------------------ -/

/-- The slice of `st.session_state` the molecule editor touches:
`current_molecule` (a SMILES string), `message`, and the `submitted`
scoring flag. -/
structure GameState where
  current_molecule : String
  message : String
  submitted : Bool
deriving DecidableEq, Repr

/-- `LipinskiGame.functional_group_editor`, "Add Group" branch
(`10_Lipinski_game.py` lines 244–258).  `parse` stands for
`Chem.MolFromSmiles`; `toSmiles` for `Chem.MolToSmiles`; `attachOutcome`
for the call `attach_functional_group(mol, functional_groups[...])` inside
the `try` block, with `Except.error e` modelling the call raising an
exception that the editor's `except` branch catches. -/
def addGroupAction (parse : String → Option Mol) (toSmiles : Mol → String)
    (attachOutcome : Mol → Except String (Option Mol)) (s : GameState) :
    GameState :=
  match parse s.current_molecule with
  | none => { s with message := "Current molecule is invalid!" }
  | some mol =>
    match attachOutcome mol with
    | Except.error e => { s with message := "Error: " ++ e }
    | Except.ok none => { s with message := "Invalid modification!" }
    | Except.ok (some new_mol) =>
        { current_molecule := toSmiles new_mol
          message := "Group added successfully!"
          submitted := false }

/-- `LipinskiGame.functional_group_editor`, direct-SMILES branch
(`10_Lipinski_game.py` lines 260–272): if the typed text differs from the
current molecule, parse it; on success adopt it, otherwise report
"Invalid SMILES!" and keep the prior value. -/
def smilesInputAction (parse : String → Option Mol) (smiles_input : String)
    (s : GameState) : GameState :=
  if smiles_input ≠ s.current_molecule then
    match parse smiles_input with
    | some _ =>
        { current_molecule := smiles_input
          message := "SMILES updated successfully!"
          submitted := false }
    | none => { s with message := "Invalid SMILES!" }
  else s

/- ------------------------------------------------------------------ -/
/- Lipinski parameters and compliance (`10_Lipinski_game.py`)          -/
/- ------------------------------------------------------------------ -/

/-- The parameter record built by
`LipinskiGame.calculate_lipinski_parameters`: molecular weight and LogP
are floats (modelled exactly as rationals), the hydrogen-bond donor and
acceptor counts are integers. -/
structure LipinskiParams where
  molecularWeight : ℚ
  logP : ℚ
  hDonors : ℕ
  hAcceptors : ℕ
deriving DecidableEq, Repr

/-- The `rules` dictionary of `LipinskiGame.check_lipinski_compliance`
(`10_Lipinski_game.py` lines 149–154), in insertion order: molecular
weight ≤ 500, LogP ≤ 5, H-bond donors ≤ 5, H-bond acceptors ≤ 10. -/
def lipinskiRules (p : LipinskiParams) : List Bool :=
  [decide (p.molecularWeight ≤ 500),
   decide (p.logP ≤ 5),
   decide (p.hDonors ≤ 5),
   decide (p.hAcceptors ≤ 10)]

/-- `LipinskiGame.check_lipinski_compliance` on a non-`None` parameter
record (lines 144–156): return the rules and the compliance verdict
`sum(rules.values()) >= 3`. -/
def check_lipinski_compliance (p : LipinskiParams) : List Bool × Bool :=
  (lipinskiRules p, decide (3 ≤ (lipinskiRules p).count true))

/- ------------------------------------------------------------------ -/
/- Pharmacokinetic models (`4_Pharmacokinetic_Modeling.py`)            -/
/- ------------------------------------------------------------------ -/

/-- `one_compartment_iv_bolus(t, D, V, k)` (lines 8–10): IV bolus
concentration `(D/V) * exp(-k*t)`, evaluated elementwise over the time
grid; modelled at one time point. -/
noncomputable def one_compartment_iv_bolus (t D V k : ℝ) : ℝ :=
  (D / V) * Real.exp (-k * t)

/-- `one_compartment_infusion(t, R, V, k, T_inf)` (lines 12–20): the loop
fills an output array with one entry per entry of `t`, using the during-
infusion formula for `time ≤ T_inf` and the post-infusion formula
otherwise. -/
noncomputable def one_compartment_infusion (t : List ℝ) (R V k T_inf : ℝ) :
    List ℝ :=
  t.map (fun time =>
    if time ≤ T_inf then
      (R / k / V) * (1 - Real.exp (-k * time))
    else
      (R / k / V) * (1 - Real.exp (-k * T_inf)) * Real.exp (-k * (time - T_inf)))

/-- `one_compartment_oral(t, D, V, ka, ke, F=1.0)` (lines 22–24): the oral
absorption formula `(F*D*ka)/(V*(ka-ke)) * (exp(-ke*t) - exp(-ka*t))`,
written exactly as the source writes it, with no guard on the
denominator. -/
noncomputable def one_compartment_oral (t D V ka ke F : ℝ) : ℝ :=
  (F * D * ka) / (V * (ka - ke)) * (Real.exp (-ke * t) - Real.exp (-ka * t))

/-- Python scalar float division `a / b`: raises `ZeroDivisionError` when
the divisor is zero, otherwise returns the quotient.  In
`one_compartment_oral` the prefactor `(F*D*ka)/(V*(ka-ke))` divides
plain Python floats (`D`, `V`, `ka`, `ke`, `F` all come from sliders as
scalars), so this — not NumPy's elementwise division — is the semantics
of that division. -/
noncomputable def pyDiv (a b : ℝ) : Except String ℝ :=
  if b = 0 then Except.error "ZeroDivisionError" else Except.ok (a / b)

/-- Evaluation of `one_compartment_oral` under Python's actual order of
operations: the scalar prefactor division is computed first and raises on
a zero denominator before the NumPy array expression is ever formed; only
on success is the result multiplied by `exp(-ke*t) - exp(-ka*t)`. -/
noncomputable def one_compartment_oral_eval (t D V ka ke F : ℝ) :
    Except String ℝ :=
  match pyDiv (F * D * ka) (V * (ka - ke)) with
  | Except.error e => Except.error e
  | Except.ok c => Except.ok (c * (Real.exp (-ke * t) - Real.exp (-ka * t)))

/-- `two_compartment_system(y, t, k12, k21, k10)` (lines 32–37): the
two-compartment ODE right-hand side on the state
`(central, peripheral)`. -/
def two_compartment_system (y : ℝ × ℝ) (_t : ℝ) (k12 k21 k10 : ℝ) : ℝ × ℝ :=
  (-k12 * y.1 + k21 * y.2 - k10 * y.1, k12 * y.1 - k21 * y.2)

/-- Steps of the numerical integrator behind `scipy.integrate.odeint`:
advance the state from the previous requested time to each subsequent
requested time (explicit first-order step between grid points), emitting
one state per requested time. -/
noncomputable def odeintSteps (f : ℝ × ℝ → ℝ → ℝ × ℝ) :
    ℝ × ℝ → ℝ → List ℝ → List (ℝ × ℝ)
  | _, _, [] => []
  | y, tprev, tc :: rest =>
      let d := f y tprev
      let y' := (y.1 + (tc - tprev) * d.1, y.2 + (tc - tprev) * d.2)
      y' :: odeintSteps f y' tc rest

/-- Model of `scipy.integrate.odeint(func, y0, t, args)` as the page uses
it: the solution array has one row per entry of `t`, the first row being
the initial condition at `t[0]`.  The solver's adaptive numerics are
abstracted to an explicit step between consecutive requested times; the
shape contract (`len(t)` rows) is what the claims below rely on. -/
noncomputable def odeint (f : ℝ × ℝ → ℝ → ℝ × ℝ) (y0 : ℝ × ℝ)
    (t : List ℝ) : List (ℝ × ℝ) :=
  match t with
  | [] => []
  | t0 :: rest => y0 :: odeintSteps f y0 t0 rest

/-- `two_compartment_iv_bolus(t, D, V1, k12, k21, k10)` (lines 39–43):
integrate the two-compartment system from `[D/V1, 0]` over the requested
times and return the central-compartment column. -/
noncomputable def two_compartment_iv_bolus (t : List ℝ) (D V1 k12 k21 k10 : ℝ) :
    List ℝ :=
  (odeint (fun y s => two_compartment_system y s k12 k21 k10) (D / V1, 0) t).map
    Prod.fst

/- ------------------------------------------------------------------ -/
/- Physical pharmacy and ionization                                    -/
/- ------------------------------------------------------------------ -/

/-- `calculate_buffer_capacity(ka, buffer_conc, ph)` from
`src/pages/7_Physical_Pharmacy.py` lines 18–21:
`h = 10**(-ph)`; return `(2.303 * ka * h * buffer_conc) / (ka + h)**2`. -/
noncomputable def calculate_buffer_capacity (ka buffer_conc ph : ℝ) : ℝ :=
  let h := (10 : ℝ) ^ (-ph)
  (2.303 * ka * h * buffer_conc) / (ka + h) ^ 2

/-- `calculate_ionization(pH, pKa, is_acid=True)` from
`src/pages/2_ PH_Effects_on_Drug_Ionization.py` lines 7–13: the
Henderson–Hasselbalch ionized fraction `1 / (1 + 10**(pKa - pH))` for an
acid, `1 / (1 + 10**(pH - pKa))` for a base. -/
noncomputable def calculate_ionization (pH pKa : ℝ) (is_acid : Bool) : ℝ :=
  if is_acid then 1 / (1 + (10 : ℝ) ^ (pKa - pH))
  else 1 / (1 + (10 : ℝ) ^ (pH - pKa))

/- ------------------------------------------------------------------ -/
/- Drug release (`6_Drug_Diffusion_and_Release_Mechanisms.py`)         -/
/- ------------------------------------------------------------------ -/

/-- `zero_order_release(t, k, M0)` (lines 36–38): `np.minimum(k*t, M0)`,
evaluated elementwise; modelled at one time point, floats as exact
rationals. -/
def zero_order_release (t k M0 : ℚ) : ℚ :=
  min (k * t) M0

/- ------------------------------------------------------------------ -/
/- Theorems                                                            -/
/- ------------------------------------------------------------------ -/

/-- C1: evaluating `attach_functional_group` at the spec's own scenario —
base ethane (`"CC"`), fragment methyl (`"[*:1]C"`) — the code returns a
graph in which the methyl carbon (atom 7, atomic number 6) has no bonds at
all: the routine bonds the heavy atom to the dummy placeholder and then
deletes the placeholder, which deletes that very bond, so the result is a
disconnected graph (an ethane residue plus an isolated carbon), not the
connected 3-carbon alkane (propane) the claim asserts. -/
theorem attach_methyl_to_ethane_not_propane :
    attach_functional_group ethane (some methylFragment) = some ethaneMethylResult ∧
    ethaneMethylResult.atoms.getD 7 0 = 6 ∧
    ethaneMethylResult.neighborsOf 7 = [] ∧
    ethaneMethylResult.atoms.count 6 = 3 := by
  refine ⟨by decide, by decide, by decide, by decide⟩

/-- C10: `zero_order_release` returns exactly `min (k*t) M0`, and for
non-negative inputs the cumulative amount released never exceeds the total
drug load `M0`. -/
theorem zero_order_release_capped (t k M0 : ℚ)
    (_ht : 0 ≤ t) (_hk : 0 ≤ k) (_hM : 0 ≤ M0) :
    zero_order_release t k M0 = min (k * t) M0 ∧
    zero_order_release t k M0 ≤ M0 :=
  ⟨rfl, min_le_right _ _⟩

/-- Witness for C10 at `t = 3`, `k = 2`, `M0 = 5`. -/
theorem zero_order_release_capped_witness :
    zero_order_release 3 2 5 = min (2 * 3) 5 ∧ zero_order_release 3 2 5 ≤ 5 :=
  zero_order_release_capped 3 2 5 (by decide) (by decide) (by decide)

/-- C7: for every pKa, the Henderson–Hasselbalch ionized fraction of an
acid at `pH = pKa` is exactly `0.5`. -/
theorem calculate_ionization_half_at_pKa (pKa : ℝ) :
    calculate_ionization pKa pKa true = 0.5 := by
  simp [calculate_ionization, sub_self, Real.rpow_zero]
  norm_num

/-- C5: the one-compartment IV bolus concentration at `t = 0` with
`D = 500`, `V = 50`, `k = 0.5` is exactly `10 = D/V`, and for every
positive `D`, `V`, `k` the concentration is strictly decreasing in `t`. -/
theorem one_compartment_iv_bolus_spec (D V k : ℝ)
    (hD : 0 < D) (hV : 0 < V) (hk : 0 < k) :
    one_compartment_iv_bolus 0 500 50 0.5 = 10 ∧
    StrictAnti (fun t => one_compartment_iv_bolus t D V k) := by
  constructor
  · simp [one_compartment_iv_bolus, Real.exp_zero]
    norm_num
  · intro t1 t2 hlt
    simp only [one_compartment_iv_bolus]
    have hexp : Real.exp (-k * t2) < Real.exp (-k * t1) :=
      Real.exp_lt_exp.mpr (by nlinarith)
    exact mul_lt_mul_of_pos_left hexp (div_pos hD hV)

/-- Witness for C5 at `D = 500`, `V = 50`, `k = 0.5`. -/
theorem one_compartment_iv_bolus_spec_witness :
    one_compartment_iv_bolus 0 500 50 0.5 = 10 ∧
    StrictAnti (fun t => one_compartment_iv_bolus t 500 50 0.5) :=
  one_compartment_iv_bolus_spec 500 50 0.5 (by norm_num) (by norm_num)
    (by norm_num)

/-- C4 counterexample: at the in-range slider input `D = 500`, `V = 50`,
`ka = ke = 0.5`, `F = 1`, `t = 1`, the denominator `V*(ka-ke)` is zero
and the unguarded Python scalar division raises `ZeroDivisionError` — the
evaluation is an error, not a non-finite value, refuting the claim's
"non-finite rather than an error". -/
theorem one_compartment_oral_raises_at_equal_rates :
    one_compartment_oral_eval 1 500 50 0.5 0.5 1
      = Except.error "ZeroDivisionError" := by
  simp [one_compartment_oral_eval, pyDiv, sub_self]

/-- C4 (amended): the formula evaluators perform no input validation —
for every input with equal absorption and elimination rate constants
(`ka = ke`), the denominator `V*(ka-ke)` of `one_compartment_oral` is
zero and the unguarded scalar division raises `ZeroDivisionError` (an
error) rather than returning a value; the zero-denominator branch is
reachable from in-range slider values. -/
theorem one_compartment_oral_zero_denominator (t D V ka F : ℝ) :
    V * (ka - ka) = 0 ∧
    one_compartment_oral_eval t D V ka ka F
      = Except.error "ZeroDivisionError" :=
  ⟨by ring, by simp [one_compartment_oral_eval, pyDiv, sub_self]⟩

/-- On a four-element boolean list, at least three `true`s is the same as
at most one `false`. -/
theorem count_true_ge_three_iff (b1 b2 b3 b4 : Bool) :
    3 ≤ ([b1, b2, b3, b4].count true) ↔ ([b1, b2, b3, b4].count false) ≤ 1 := by
  cases b1 <;> cases b2 <;> cases b3 <;> cases b4 <;> decide

/-- C2: for every parameter record, the compliance verdict of
`check_lipinski_compliance` is `true` exactly when at most one of the four
rules fails; and the molecular-weight rule (the first entry of the rules
list) holds at weight exactly `500` and fails at weight `500.01`. -/
theorem check_lipinski_compliance_spec (p q r : LipinskiParams)
    (hq : q.molecularWeight = 500) (hr : r.molecularWeight = 500.01) :
    ((check_lipinski_compliance p).2 = true ↔
      (lipinskiRules p).count false ≤ 1) ∧
    (lipinskiRules q).head? = some true ∧
    (lipinskiRules r).head? = some false := by
  refine ⟨?_, ?_, ?_⟩
  · simp only [check_lipinski_compliance, decide_eq_true_eq]
    exact count_true_ge_three_iff _ _ _ _
  · simp only [lipinskiRules, hq, List.head?_cons, Option.some.injEq,
      decide_eq_true_eq]
    norm_num
  · simp only [lipinskiRules, hr, List.head?_cons, Option.some.injEq,
      decide_eq_false_iff_not]
    norm_num

/-- Witness for C2 with a compliant record and the two boundary weights. -/
theorem check_lipinski_compliance_spec_witness :
    ((check_lipinski_compliance ⟨480, 3, 2, 4⟩).2 = true ↔
      (lipinskiRules ⟨480, 3, 2, 4⟩).count false ≤ 1) ∧
    (lipinskiRules ⟨500, 0, 0, 0⟩).head? = some true ∧
    (lipinskiRules ⟨500.01, 0, 0, 0⟩).head? = some false :=
  check_lipinski_compliance_spec ⟨480, 3, 2, 4⟩ ⟨500, 0, 0, 0⟩
    ⟨500.01, 0, 0, 0⟩ rfl rfl

/-- The integrator emits exactly one state per requested time point. -/
theorem odeintSteps_length (f : ℝ × ℝ → ℝ → ℝ × ℝ) (y : ℝ × ℝ) (tprev : ℝ)
    (t : List ℝ) : (odeintSteps f y tprev t).length = t.length := by
  induction t generalizing y tprev with
  | nil => rfl
  | cons tc rest ih => simp [odeintSteps, ih]

/-- The solution array of `odeint` has one row per entry of `t`. -/
theorem odeint_length (f : ℝ × ℝ → ℝ → ℝ × ℝ) (y0 : ℝ × ℝ) (t : List ℝ) :
    (odeint f y0 t).length = t.length := by
  cases t with
  | nil => rfl
  | cons t0 rest => simp [odeint, odeintSteps_length]

/-- C8: for every time grid and every scalar parameter set,
`one_compartment_infusion` and `two_compartment_iv_bolus` return arrays of
exactly `len(t)` elements (they are pure functions of their arguments;
statelessness is by construction in this embedding). -/
theorem pk_evaluators_preserve_length (t : List ℝ)
    (R V k T_inf D V1 k12 k21 k10 : ℝ) :
    (one_compartment_infusion t R V k T_inf).length = t.length ∧
    (two_compartment_iv_bolus t D V1 k12 k21 k10).length = t.length := by
  constructor
  · simp [one_compartment_infusion]
  · simp [two_compartment_iv_bolus, odeint_length]

/-- C3: a failed molecule edit is atomic.  If the current molecule fails to
parse, or the attachment call returns `None` or raises, the "Add Group"
branch leaves `current_molecule` unchanged and sets one of the editor's
user messages; and if typed SMILES text fails to parse, the direct-input
branch leaves `current_molecule` unchanged and reports "Invalid
SMILES!". -/
theorem failed_edit_preserves_current_molecule
    (parse : String → Option Mol) (toSmiles : Mol → String)
    (attachOutcome : Mol → Except String (Option Mol))
    (smiles_input : String) (s : GameState)
    (hattach : ∀ mol, parse s.current_molecule = some mol →
      ∀ new_mol, attachOutcome mol ≠ Except.ok (some new_mol))
    (hparse : parse smiles_input = none) :
    (addGroupAction parse toSmiles attachOutcome s).current_molecule
      = s.current_molecule ∧
    ((addGroupAction parse toSmiles attachOutcome s).message
        = "Current molecule is invalid!" ∨
     (∃ e, (addGroupAction parse toSmiles attachOutcome s).message
        = "Error: " ++ e) ∨
     (addGroupAction parse toSmiles attachOutcome s).message
        = "Invalid modification!") ∧
    (smilesInputAction parse smiles_input s).current_molecule
      = s.current_molecule ∧
    (smiles_input ≠ s.current_molecule →
      (smilesInputAction parse smiles_input s).message = "Invalid SMILES!") := by
  have hAG : (addGroupAction parse toSmiles attachOutcome s).current_molecule
        = s.current_molecule ∧
      ((addGroupAction parse toSmiles attachOutcome s).message
          = "Current molecule is invalid!" ∨
       (∃ e, (addGroupAction parse toSmiles attachOutcome s).message
          = "Error: " ++ e) ∨
       (addGroupAction parse toSmiles attachOutcome s).message
          = "Invalid modification!") := by
    rcases hp : parse s.current_molecule with _ | mol
    · exact ⟨by simp [addGroupAction, hp], Or.inl (by simp [addGroupAction, hp])⟩
    · rcases ha : attachOutcome mol with e | o
      · exact ⟨by simp [addGroupAction, hp, ha],
          Or.inr (Or.inl ⟨e, by simp [addGroupAction, hp, ha]⟩)⟩
      · rcases o with _ | new_mol
        · exact ⟨by simp [addGroupAction, hp, ha],
            Or.inr (Or.inr (by simp [addGroupAction, hp, ha]))⟩
        · exact absurd ha (hattach mol hp new_mol)
  have hSI : (smilesInputAction parse smiles_input s).current_molecule
        = s.current_molecule ∧
      (smiles_input ≠ s.current_molecule →
        (smilesInputAction parse smiles_input s).message = "Invalid SMILES!") := by
    unfold smilesInputAction
    by_cases hne : smiles_input = s.current_molecule
    · simp [hne]
    · simp [hne, hparse]
  exact ⟨hAG.1, hAG.2, hSI.1, hSI.2⟩

/-- Witness for C3: a parse function that rejects everything, the starting
ethane state, and an attachment call that reports failure. -/
theorem failed_edit_preserves_current_molecule_witness :
    (addGroupAction (fun _ => none) (fun _ => "")
        (fun _ => Except.ok none) ⟨"CC", "", false⟩).current_molecule
      = (⟨"CC", "", false⟩ : GameState).current_molecule ∧
    ((addGroupAction (fun _ => none) (fun _ => "")
        (fun _ => Except.ok none) ⟨"CC", "", false⟩).message
        = "Current molecule is invalid!" ∨
     (∃ e, (addGroupAction (fun _ => none) (fun _ => "")
        (fun _ => Except.ok none) ⟨"CC", "", false⟩).message
        = "Error: " ++ e) ∨
     (addGroupAction (fun _ => none) (fun _ => "")
        (fun _ => Except.ok none) ⟨"CC", "", false⟩).message
        = "Invalid modification!") ∧
    (smilesInputAction (fun _ => none) "C(C"
        ⟨"CC", "", false⟩).current_molecule
      = (⟨"CC", "", false⟩ : GameState).current_molecule ∧
    ("C(C" ≠ (⟨"CC", "", false⟩ : GameState).current_molecule →
      (smilesInputAction (fun _ => none) "C(C" ⟨"CC", "", false⟩).message
        = "Invalid SMILES!") :=
  failed_edit_preserves_current_molecule (fun _ => none) (fun _ => "")
    (fun _ => Except.ok none) "C(C" ⟨"CC", "", false⟩
    (fun _ h _ => Option.noConfusion h) rfl

/-- C9: when the fragment parses but contains no dummy atom (atomic number
`0`), `attach_functional_group` does not fail: it silently falls back to
fragment-atom index `0`, bonds the base molecule's heavy atom to that atom
(at combined index `n_atoms_main + 0`), then deletes that very atom — the
"fragment carries one open attachment point" precondition is never
checked. -/
theorem attach_no_dummy_fallback (mol fg : Mol) (hIdx heavyIdx0 : Nat)
    (hnd : findDummy fg = none)
    (hH : findHydrogen (addHs mol) = some (hIdx, heavyIdx0)) :
    attach_functional_group mol (some fg) ≠ none ∧
    attach_functional_group mol (some fg) =
      some (sanitizeMol (removeAtom
        (addBond (combineMols (removeAtom (addHs mol) hIdx) fg)
          (if hIdx < heavyIdx0 then heavyIdx0 - 1 else heavyIdx0)
          ((removeAtom (addHs mol) hIdx).atoms.length + 0))
        ((removeAtom (addHs mol) hIdx).atoms.length + 0))) := by
  have heq : attach_functional_group mol (some fg) =
      some (sanitizeMol (removeAtom
        (addBond (combineMols (removeAtom (addHs mol) hIdx) fg)
          (if hIdx < heavyIdx0 then heavyIdx0 - 1 else heavyIdx0)
          ((removeAtom (addHs mol) hIdx).atoms.length + 0))
        ((removeAtom (addHs mol) hIdx).atoms.length + 0))) := by
    simp [attach_functional_group, hH, hnd]
  exact ⟨by rw [heq]; exact Option.some_ne_none _, heq⟩

/-- Witness for C9: methane (`"C"`, no dummy atom) attached to ethane. -/
theorem attach_no_dummy_fallback_witness :
    attach_functional_group ethane (some methane) ≠ none ∧
    attach_functional_group ethane (some methane) =
      some (sanitizeMol (removeAtom
        (addBond (combineMols (removeAtom (addHs ethane) 2) methane)
          (if 2 < 0 then 0 - 1 else 0)
          ((removeAtom (addHs ethane) 2).atoms.length + 0))
        ((removeAtom (addHs ethane) 2).atoms.length + 0))) :=
  attach_no_dummy_fallback ethane methane 2 0 (by decide) (by decide)

/-- `calculate_buffer_capacity` with its intermediate `h` substituted. -/
theorem calculate_buffer_capacity_def (ka buffer_conc ph : ℝ) :
    calculate_buffer_capacity ka buffer_conc ph =
      (2.303 * ka * ((10 : ℝ) ^ (-ph)) * buffer_conc) /
        (ka + (10 : ℝ) ^ (-ph)) ^ 2 := rfl

/-- C6: for every pKa (with `ka = 10^(-pKa)`) and every fixed positive
buffer concentration, the buffer capacity is strictly smaller at any
`pH ≠ pKa` than at `pH = pKa`: the maximum is attained uniquely at
`pH = pKa`. -/
theorem buffer_capacity_max_at_pKa (pKa buffer_conc pH : ℝ)
    (hC : 0 < buffer_conc) (hne : pH ≠ pKa) :
    calculate_buffer_capacity ((10 : ℝ) ^ (-pKa)) buffer_conc pH <
      calculate_buffer_capacity ((10 : ℝ) ^ (-pKa)) buffer_conc pKa := by
  have h10 : (1 : ℝ) < 10 := by norm_num
  rw [calculate_buffer_capacity_def, calculate_buffer_capacity_def]
  set a := (10 : ℝ) ^ (-pKa) with ha
  set x := (10 : ℝ) ^ (-pH) with hx
  have hapos : 0 < a := Real.rpow_pos_of_pos (by norm_num) _
  have hxpos : 0 < x := Real.rpow_pos_of_pos (by norm_num) _
  have hxa : a - x ≠ 0 := by
    intro h
    apply hne
    have hax : x = a := by linarith
    have h1 : -pH ≤ -pKa :=
      (Real.rpow_le_rpow_left_iff h10).mp (le_of_eq (hx ▸ ha ▸ hax))
    have h2 : -pKa ≤ -pH :=
      (Real.rpow_le_rpow_left_iff h10).mp (le_of_eq (hx ▸ ha ▸ hax.symm))
    linarith
  have hsq : 0 < (a - x) ^ 2 := pow_two_pos_of_ne_zero hxa
  rw [div_lt_div_iff₀ (by positivity) (by positivity)]
  nlinarith [mul_pos (mul_pos (mul_pos hapos hapos) hC) hsq]

/-- Witness for C6 at `pKa = 4`, `buffer_conc = 1`, `pH = 5`. -/
theorem buffer_capacity_max_at_pKa_witness :
    calculate_buffer_capacity ((10 : ℝ) ^ (-(4 : ℝ))) 1 5 <
      calculate_buffer_capacity ((10 : ℝ) ^ (-(4 : ℝ))) 1 4 :=
  buffer_capacity_max_at_pKa 4 1 5 one_pos (by norm_num)
